import Mathlib

/-!
Verification of the GruhaAlankar Recommendation Matching Engine.

Shallow embedding of the two logic-bearing functions of the repository:

* `RoomAnalysisService.match_furniture`
  (backend/services/room_analysis_service.py, the Profile Scorer), and
* `AIService.map_recommendations_to_assets`
  (backend/services/ai_service.py, the Suggestion Reconciler).

Python dictionaries with optional keys are modelled as structures with
`Option` fields (`d.get(k, v)` becomes `field.getD v`); Python floats are
modelled as rationals; Python string containment (`a in b`) is modelled by
`isSubstr`; Python exceptions are modelled with `Except` where a claim
depends on raising behaviour.
-/

namespace GruhaAlankar

/-- All suffixes of a list, the longest first (including the empty one). -/
def suffixes : List Char → List (List Char)
  | [] => [[]]
  | c :: rest => (c :: rest) :: suffixes rest

/-- Python string containment `needle in hay`: `needle` occurs contiguously
in `hay`. -/
def isSubstr (needle hay : String) : Bool :=
  (suffixes hay.toList).any (fun t => needle.toList.isPrefixOf t)

/-- Python `str.lower()` (per-character ASCII lowercasing, the semantics of
`String.toLower`), written over the character list so that the kernel can
evaluate it. -/
def pyLower (s : String) : String := ⟨s.data.map Char.toLower⟩

/-- `dimensions` sub-dictionary of a catalog item; both keys optional. -/
structure Dims where
  width : Option ℚ
  depth : Option ℚ
deriving DecidableEq

/-- A catalog item as the engine reads it: every key accessed through
`.get` is optional (`tags` defaults to `[]`, so it is stored plainly). -/
structure CatalogItem where
  id : Option String
  name : Option String
  category : Option String
  style : Option String
  dimensions : Option Dims
  available_colors : Option (List String)
  tags : List String
deriving DecidableEq

/-- The room-analysis dictionary fields read by `match_furniture`. -/
structure RoomAnalysis where
  room_type : Option String
  style : Option String
  space_size : Option String
deriving DecidableEq

/-- Output of the Profile Scorer: the item together with
`recommendation_score` and `reasons` (the Python code spreads `**item` and
adds the two keys). -/
structure ScoredItem where
  item : CatalogItem
  recommendation_score : Nat
  reasons : List String
deriving DecidableEq

/-- `category_map.get(room_type, ['living'])` from `match_furniture`:
the hard-coded room-type → categories table with its `['living']`
fallback for unknown keys. -/
def validCategories (roomType : String) : List String :=
  if roomType = "living" then ["living", "lounge"]
  else if roomType = "bedroom" then ["bedroom", "bed"]
  else if roomType = "dining" then ["dining", "kitchen"]
  else if roomType = "office" then ["office", "study", "desk"]
  else ["living"]

/-- `any(cat in item.get('category', '').lower() for cat in valid_categories)`. -/
def categoryMatchB (validCats : List String) (item : CatalogItem) : Bool :=
  validCats.any (fun cat => isSubstr cat (pyLower (item.category.getD "")))

/-- `style_preference in item.get('style', '').lower()`. -/
def styleMatchB (stylePref : String) (item : CatalogItem) : Bool :=
  isSubstr stylePref (pyLower (item.style.getD ""))

/-- The size-considerations block of `match_furniture`: `+20` for a compact
item in a small room, `+20` for a large item in a large room, `+10` in the
`else` branch (any `space_size` other than `small`/`large`); a failed
threshold test inside `small`/`large` contributes nothing. -/
def sizeScore (spaceSize : String) (item : CatalogItem) : Nat × List String :=
  if spaceSize = "small" then
    let dims := item.dimensions.getD ⟨none, none⟩
    let width := dims.width.getD 2
    let depth := dims.depth.getD 2
    if width < mkRat 3 2 ∧ depth < mkRat 3 2 then (20, ["Compact size fits small spaces"])
    else (0, [])
  else if spaceSize = "large" then
    let dims := item.dimensions.getD ⟨none, none⟩
    let width := dims.width.getD 1
    let depth := dims.depth.getD 1
    if width > 2 ∨ depth > 2 then (20, ["Statement piece for larger rooms"])
    else (0, [])
  else (10, ["Versatile size for medium spaces"])

/-- One iteration of the scoring loop of `match_furniture`: sequential
accumulation of score and reasons exactly as in the Python body. -/
def scoreItem (roomType stylePref spaceSize : String) (validCats : List String)
    (item : CatalogItem) : Nat × List String :=
  let score0 : Nat := 0
  let reasons0 : List String := []
  let score1 := if categoryMatchB validCats item then score0 + 50 else score0
  let reasons1 := if categoryMatchB validCats item then
    reasons0 ++ ["Perfect for your " ++ roomType ++ " room"] else reasons0
  let score2 := if styleMatchB stylePref item then score1 + 30 else score1
  let reasons2 := if styleMatchB stylePref item then
    reasons1 ++ ["Matches your " ++ stylePref ++ " style"] else reasons1
  let sz := sizeScore spaceSize item
  (score2 + sz.1, reasons2 ++ sz.2)

/-- The category list `match_furniture` actually uses for a given room
analysis: the table applied to the (defaulted, lowercased) `room_type`. -/
def usedCategories (ra : RoomAnalysis) : List String :=
  validCategories (pyLower (ra.room_type.getD "living"))

/-- The `recommendations` list of `match_furniture` before sorting: each
catalog item scored (with the defaulted, lowercased profile fields), kept
when `score >= 50`, in catalog order. -/
def scoredList (ra : RoomAnalysis) (catalog : List CatalogItem) : List ScoredItem :=
  catalog.filterMap (fun item =>
    let sr := scoreItem (pyLower (ra.room_type.getD "living"))
      (pyLower (ra.style.getD "modern")) (pyLower (ra.space_size.getD "medium"))
      (usedCategories ra) item
    if 50 ≤ sr.1 then some ⟨item, sr.1, sr.2⟩ else none)

/-- Insert `x` (an element originally later in the list) into a list sorted
by descending key: it goes after every element with a strictly larger key
and before the first element whose key is ≤, which is exactly the order a
stable descending sort produces. -/
def insertDescBy {α : Type} (key : α → Nat) (x : α) : List α → List α
  | [] => [x]
  | h :: t => if key x < key h then h :: insertDescBy key x t else x :: h :: t

/-- Stable descending insertion sort by `key`: the order produced by
Python's stable `list.sort(key=..., reverse=True)`. -/
def sortDescBy {α : Type} (key : α → Nat) : List α → List α
  | [] => []
  | h :: t => insertDescBy key h (sortDescBy key t)

/-- `RoomAnalysisService.match_furniture` on well-formed (typed) input:
score every item, keep scores ≥ 50, stable-sort descending by
`recommendation_score`, return the first 8. -/
def match_furniture (ra : RoomAnalysis) (catalog : List CatalogItem) : List ScoredItem :=
  (sortDescBy (fun s => s.recommendation_score) (scoredList ra catalog)).take 8

/-! ## Suggestion Reconciler (`AIService.map_recommendations_to_assets`)

The reconciler has no `try/except`, so the Python exceptions it can raise
(`IndexError` from `available_colors[0]` on an explicitly empty list,
`KeyError` from `item['id']` on an item without an `id` key) are modelled
with `Except`. -/

/-- The Python exceptions the two embedded functions can raise. -/
inductive PyErr where
  | attributeError
  | typeError
  | indexError
  | keyError
deriving DecidableEq

/-- One AI recommendation dictionary as read by the reconciler. -/
structure Suggestion where
  furniture_type : Option String
  category : Option String
  preferred_style : Option String
  reason : Option String
deriving DecidableEq

/-- One entry of the reconciler's output list. -/
structure MatchedAsset where
  asset_id : String
  color : String
  reason : String
  confidence : ℚ
deriving DecidableEq

/-- `type_match`: the lowercased `furniture_type` is a substring of the
item's lowercased name, or equals one of its tags. -/
def typeMatchB (ft : String) (item : CatalogItem) : Bool :=
  isSubstr ft (pyLower (item.name.getD "")) || item.tags.contains ft

/-- `category_match`: the lowercased suggestion category equals the item's
lowercased category exactly. -/
def categoryEqB (cat : String) (item : CatalogItem) : Bool :=
  cat == pyLower (item.category.getD "")

/-- `style_match`: the lowercased preferred style equals the item's
lowercased style, or the preferred style is empty (`not style`). -/
def styleEqB (st : String) (item : CatalogItem) : Bool :=
  st == pyLower (item.style.getD "") || st == ""

/-- `type_match and category_match`: the acceptance condition of the inner
scan. -/
def suggMatches (ft cat : String) (item : CatalogItem) : Bool :=
  typeMatchB ft item && categoryEqB cat item

/-- The inner `for item in available_furniture` scan for one suggestion:
stops at the first item satisfying `type_match and category_match`
(`break`), builds the asset dictionary there, and can raise `IndexError`
(empty `available_colors` list) or `KeyError` (missing `id`). -/
def matchAsset (ft cat st rsn : String) : List CatalogItem → Except PyErr (Option MatchedAsset)
  | [] => .ok none
  | item :: rest =>
    if suggMatches ft cat item then
      match item.available_colors.getD ["#808080"] with
      | [] => .error .indexError
      | c :: _ =>
        match item.id with
        | none => .error .keyError
        | some i => .ok (some ⟨i, c, rsn, if styleEqB st item then mkRat 4 5 else mkRat 3 5⟩)
    else matchAsset ft cat st rsn rest

/-- `AIService.map_recommendations_to_assets`: for each recommendation in
order, normalize its fields, scan the catalog first-match-wins, and append
the matched asset (if any); exceptions propagate to the caller. -/
def map_recommendations_to_assets :
    List Suggestion → List CatalogItem → Except PyErr (List MatchedAsset)
  | [], _ => .ok []
  | r :: rest, avail => do
    let m ← matchAsset (pyLower (r.furniture_type.getD ""))
      (pyLower (r.category.getD "")) (pyLower (r.preferred_style.getD ""))
      (r.reason.getD "") avail
    let tail ← map_recommendations_to_assets rest avail
    match m with
    | some a => .ok (a :: tail)
    | none => .ok tail

/-- The asset dictionary built for an accepted match, as a function of the
matched item (used to state first-match-wins): `item['id']`,
`available_colors[0]` with the `.get` default, the suggestion's reason and
the style-dependent confidence. -/
def mkA (st rsn : String) (item : CatalogItem) : MatchedAsset :=
  ⟨item.id.getD "", (item.available_colors.getD ["#808080"]).headD "#808080",
   rsn, if styleEqB st item then mkRat 4 5 else mkRat 3 5⟩

/-! ## Dynamic model of the Profile Scorer

`match_furniture` wraps its whole body in `try/except Exception`, returning
`[]` on any exception. To state that, the input fields are modelled as
dynamic Python values whose operations can raise: `.lower()` raises
`AttributeError` on a non-string, `dims.get` raises `AttributeError` on a
non-dictionary `dimensions` value, and `<`/`>` raise `TypeError` on a
non-number. -/

/-- A Python value expected to be a string: either an actual string or a
value of another type (on which `.lower()` raises `AttributeError`). -/
inductive PyStr where
  | str (s : String)
  | nonStr
deriving DecidableEq

/-- `.lower()` on a dynamic value. -/
def PyStr.lower : PyStr → Except PyErr String
  | .str s => .ok (pyLower s)
  | .nonStr => .error .attributeError

/-- A Python value expected to be a number: either a rational or a value of
another type (comparisons with it raise `TypeError`). -/
inductive PyNum where
  | num (q : ℚ)
  | nonNum
deriving DecidableEq

/-- `x < c` on a dynamic number. -/
def PyNum.ltQ : PyNum → ℚ → Except PyErr Bool
  | .num q, c => .ok (decide (q < c))
  | .nonNum, _ => .error .typeError

/-- `x > c` on a dynamic number. -/
def PyNum.gtQ : PyNum → ℚ → Except PyErr Bool
  | .num q, c => .ok (decide (c < q))
  | .nonNum, _ => .error .typeError

/-- A Python value expected to be the `dimensions` dictionary: either a
dictionary with optional `width`/`depth` keys or a value of another type
(on which `.get` raises `AttributeError`). -/
inductive PyDims where
  | dict (width depth : Option PyNum)
  | nonDict
deriving DecidableEq

/-- `dims.get('width', default)`. -/
def PyDims.getWidth : PyDims → PyNum → Except PyErr PyNum
  | .dict w _, d => .ok (w.getD d)
  | .nonDict, _ => .error .attributeError

/-- `dims.get('depth', default)`. -/
def PyDims.getDepth : PyDims → PyNum → Except PyErr PyNum
  | .dict _ dp, d => .ok (dp.getD d)
  | .nonDict, _ => .error .attributeError

/-- Room-analysis dictionary with dynamically-typed values. -/
structure RoomAnalysisDyn where
  room_type : Option PyStr
  style : Option PyStr
  space_size : Option PyStr
deriving DecidableEq

/-- Catalog item with dynamically-typed values (only the fields the scorer
reads). -/
structure CatalogItemDyn where
  category : Option PyStr
  style : Option PyStr
  dimensions : Option PyDims
deriving DecidableEq

/-- Size-considerations block over dynamic values; `and`/`or` short-circuit
exactly as in Python, so the `depth` comparison is only evaluated when the
`width` comparison does not already decide the condition. -/
def sizeScoreDyn (spaceSize : String) (item : CatalogItemDyn) :
    Except PyErr (Nat × List String) :=
  if spaceSize = "small" then do
    let dims := item.dimensions.getD (.dict none none)
    let width ← dims.getWidth (.num 2)
    let depth ← dims.getDepth (.num 2)
    let c1 ← width.ltQ (mkRat 3 2)
    if c1 then do
      let c2 ← depth.ltQ (mkRat 3 2)
      if c2 then pure (20, ["Compact size fits small spaces"]) else pure (0, [])
    else pure (0, [])
  else if spaceSize = "large" then do
    let dims := item.dimensions.getD (.dict none none)
    let width ← dims.getWidth (.num 1)
    let depth ← dims.getDepth (.num 1)
    let c1 ← width.gtQ 2
    if c1 then pure (20, ["Statement piece for larger rooms"])
    else do
      let c2 ← depth.gtQ 2
      if c2 then pure (20, ["Statement piece for larger rooms"]) else pure (0, [])
  else pure (10, ["Versatile size for medium spaces"])

/-- One scoring-loop iteration over dynamic values. -/
def scoreItemDyn (roomType stylePref spaceSize : String) (validCats : List String)
    (item : CatalogItemDyn) : Except PyErr (Nat × List String) := do
  let icat ← (item.category.getD (.str "")).lower
  let catMatch := validCats.any (fun cat => isSubstr cat icat)
  let score1 : Nat := if catMatch then 50 else 0
  let reasons1 := if catMatch then ["Perfect for your " ++ roomType ++ " room"] else []
  let istyle ← (item.style.getD (.str "")).lower
  let styMatch := isSubstr stylePref istyle
  let score2 := score1 + (if styMatch then 30 else 0)
  let reasons2 := reasons1 ++
    (if styMatch then ["Matches your " ++ stylePref ++ " style"] else [])
  let sz ← sizeScoreDyn spaceSize item
  pure (score2 + sz.1, reasons2 ++ sz.2)

/-- The scoring loop over dynamic values: the first exception aborts the
loop (and, uncaught inside the loop, reaches the enclosing `except`). -/
def scoredListDyn (roomType stylePref spaceSize : String) (validCats : List String) :
    List CatalogItemDyn → Except PyErr (List (CatalogItemDyn × Nat × List String))
  | [] => .ok []
  | item :: rest => do
    let sr ← scoreItemDyn roomType stylePref spaceSize validCats item
    let tail ← scoredListDyn roomType stylePref spaceSize validCats rest
    if 50 ≤ sr.1 then pure ((item, sr.1, sr.2) :: tail) else pure tail

/-- The body of the `try` block of `match_furniture` over dynamic values:
either the sorted, truncated recommendation list or the first exception
raised anywhere inside. -/
def match_furniture_core (ra : RoomAnalysisDyn) (catalog : List CatalogItemDyn) :
    Except PyErr (List (CatalogItemDyn × Nat × List String)) := do
  let roomType ← (ra.room_type.getD (.str "living")).lower
  let stylePref ← (ra.style.getD (.str "modern")).lower
  let spaceSize ← (ra.space_size.getD (.str "medium")).lower
  let validCats := validCategories roomType
  let recs ← scoredListDyn roomType stylePref spaceSize validCats catalog
  pure ((sortDescBy (fun r => r.2.1) recs).take 8)

/-- `match_furniture` with its `try/except Exception: return []` wrapper:
every exception raised by the body is converted into the empty list. -/
def match_furniture_dyn (ra : RoomAnalysisDyn) (catalog : List CatalogItemDyn) :
    List (CatalogItemDyn × Nat × List String) :=
  match match_furniture_core ra catalog with
  | .ok l => l
  | .error _ => []

/-! ## Concrete inputs used by counterexamples and witnesses -/

/-- Room analysis: living room, modern style, small space. -/
def C1ra : RoomAnalysis := ⟨some "living", some "modern", some "small"⟩

/-- A living-room item of width and depth 2 m: fails the small-space
threshold test. -/
def C1item : CatalogItem :=
  ⟨some "i1", some "Sofa", some "living", some "traditional",
   some ⟨some 2, some 2⟩, some ["#ffffff"], []⟩

/-- A 1 m × 1 m item: passes the small-space threshold test. -/
def C1smallItem : CatalogItem :=
  ⟨some "i1s", some "Side table", some "living", some "traditional",
   some ⟨some 1, some 1⟩, some ["#ffffff"], []⟩

/-- A 3 m-wide item: passes the large-space threshold test. -/
def C1largeItem : CatalogItem :=
  ⟨some "i1l", some "Sectional", some "living", some "traditional",
   some ⟨some 3, some 1⟩, some ["#ffffff"], []⟩

/-- Room analysis with the unknown room type `garage`. -/
def C2garageRa : RoomAnalysis := ⟨some "garage", some "modern", some "medium"⟩

/-- An item of category `lounge` (a member of the living-room set). -/
def C2loungeItem : CatalogItem :=
  ⟨some "i2", some "Lounge chair", some "lounge", some "traditional",
   none, some ["#ffffff"], []⟩

/-- A suggestion for a sofa in a living room. -/
def C3sugg : Suggestion := ⟨some "sofa", some "living", none, none⟩

/-- A matching item whose `available_colors` key is present but empty. -/
def C3item : CatalogItem :=
  ⟨some "sofa_001", some "Sofa", some "living", some "minimal",
   none, some [], []⟩

/-- A matching item with colors but no `available_colors` key at all. -/
def C3itemNoColors : CatalogItem :=
  ⟨some "sofa_002", some "Sofa Two", some "living", some "minimal",
   none, none, []⟩

/-- A matching item with a two-color list. -/
def C3witnessItem : CatalogItem :=
  ⟨some "sofa_004", some "Sofa Four", some "living", some "minimal",
   none, some ["#111111", "#222222"], []⟩

/-- A suggestion for a sofa in a living room. -/
def C4sugg : Suggestion := ⟨some "sofa", some "living", none, none⟩

/-- A matching catalog item that has no `id` key. -/
def C4badItem : CatalogItem :=
  ⟨none, some "Sofa", some "living", some "minimal", none, some ["#ffffff"], []⟩

/-- A well-formed matching catalog item placed after the bad one. -/
def C4goodItem : CatalogItem :=
  ⟨some "sofa_003", some "Sofa Three", some "living", some "minimal",
   none, some ["#222222"], []⟩

/-- Room analysis with only `room_type` present (other keys defaulted). -/
def C4ra : RoomAnalysis := ⟨some "living", none, none⟩

/-- An item missing both `id` and `dimensions`. -/
def C4noDimsItem : CatalogItem :=
  ⟨none, none, some "living", none, none, none, []⟩

/-- The Profile Scorer example profile of the spec: living, minimal, small. -/
def C5ra : RoomAnalysis := ⟨some "living", some "minimal", some "small"⟩

/-- The Profile Scorer example item of the spec: `sofa_001`, living,
minimal, 1.2 m × 1.0 m. -/
def C5item100 : CatalogItem :=
  ⟨some "sofa_001", some "Sofa", some "living", some "minimal",
   some ⟨some (mkRat 6 5), some 1⟩, some ["#888888"], []⟩

/-- The three reasons expected for the spec's example item. -/
def C5reasons : List String :=
  ["Perfect for your living room", "Matches your minimal style",
   "Compact size fits small spaces"]

/-- Room analysis: living room, medium space. -/
def C6ra : RoomAnalysis := ⟨some "living", some "modern", some "medium"⟩

/-- An item whose category `nonliving` is not a member of the living-room
set but contains `living` as a substring. -/
def C6item : CatalogItem :=
  ⟨some "i6", some "Shelf", some "nonliving", some "traditional",
   none, some ["#ffffff"], []⟩

/-- A suggestion for a sofa in a living room. -/
def C7sugg : Suggestion := ⟨some "sofa", some "living", none, none⟩

/-- First of two catalog items both matching `C7sugg`. -/
def C7itemA : CatalogItem :=
  ⟨some "A", some "Sofa A", some "living", some "minimal", none, some ["#aaaaaa"], []⟩

/-- Second of two catalog items both matching `C7sugg`. -/
def C7itemB : CatalogItem :=
  ⟨some "B", some "Sofa B", some "living", some "minimal", none, some ["#bbbbbb"], []⟩

/-- A dynamic room analysis whose `room_type` value is not a string:
`.lower()` raises `AttributeError` before the loop starts. -/
def C9badRa : RoomAnalysisDyn := ⟨some .nonStr, none, none⟩

/-- A well-typed dynamic room analysis (living room, defaults otherwise). -/
def C9okRa : RoomAnalysisDyn := ⟨some (.str "living"), none, none⟩

/-- A well-typed dynamic item that scores only 10 (below the threshold). -/
def C9lowItem : CatalogItemDyn := ⟨some (.str "garage"), none, none⟩

/-- A suggestion with no `furniture_type` key at all. -/
def C10sugg : Suggestion := ⟨none, some "living", none, none⟩

/-- A non-living catalog item placed first. -/
def C10itemX : CatalogItem :=
  ⟨some "X", some "Desk", some "office", some "modern", none, some ["#cccccc"], []⟩

/-- The first living-category catalog item. -/
def C10itemY : CatalogItem :=
  ⟨some "Y", some "Couch", some "living", some "modern", none, some ["#dddddd"], []⟩

/-! ## Helper lemmas -/

/-- The empty string is a substring of every string (Python `'' in s`). -/
theorem isSubstr_empty_left (hay : String) : isSubstr "" hay = true := by
  unfold isSubstr
  cases h : hay.toList with
  | nil => rfl
  | cons c rest => simp [suffixes, List.isPrefixOf]

/-- Membership is preserved by descending insertion. -/
theorem mem_insertDescBy {α : Type} (key : α → Nat) (x y : α) (l : List α) :
    y ∈ insertDescBy key x l ↔ y = x ∨ y ∈ l := by
  induction l with
  | nil => simp [insertDescBy]
  | cons h t ih =>
    unfold insertDescBy
    by_cases hc : key x < key h
    · rw [if_pos hc]
      simp only [List.mem_cons, ih]
      tauto
    · rw [if_neg hc]
      simp [List.mem_cons]

/-- Membership is preserved by the descending insertion sort. -/
theorem mem_sortDescBy {α : Type} (key : α → Nat) (y : α) (l : List α) :
    y ∈ sortDescBy key l ↔ y ∈ l := by
  induction l with
  | nil => simp [sortDescBy]
  | cons h t ih =>
    unfold sortDescBy
    rw [mem_insertDescBy, ih, List.mem_cons]

/-- Descending insertion preserves descending sortedness. -/
theorem pairwise_insertDescBy {α : Type} (key : α → Nat) (x : α) (l : List α)
    (hl : l.Pairwise (fun a b => key b ≤ key a)) :
    (insertDescBy key x l).Pairwise (fun a b => key b ≤ key a) := by
  induction l with
  | nil => simp [insertDescBy]
  | cons h t ih =>
    rw [List.pairwise_cons] at hl
    obtain ⟨hh, ht⟩ := hl
    unfold insertDescBy
    by_cases hc : key x < key h
    · rw [if_pos hc, List.pairwise_cons]
      refine ⟨fun y hy => ?_, ih ht⟩
      rcases (mem_insertDescBy key x y t).1 hy with rfl | hyt
      · exact Nat.le_of_lt hc
      · exact hh y hyt
    · rw [if_neg hc, List.pairwise_cons]
      refine ⟨fun y hy => ?_, List.pairwise_cons.2 ⟨hh, ht⟩⟩
      rcases List.mem_cons.1 hy with rfl | hyt
      · exact Nat.le_of_not_lt hc
      · exact le_trans (hh y hyt) (Nat.le_of_not_lt hc)

/-- The output of the descending insertion sort is sorted (non-increasing
keys). -/
theorem pairwise_sortDescBy {α : Type} (key : α → Nat) (l : List α) :
    (sortDescBy key l).Pairwise (fun a b => key b ≤ key a) := by
  induction l with
  | nil => simp [sortDescBy]
  | cons h t ih => exact pairwise_insertDescBy key h (sortDescBy key t) ih

/-- Inserting an element that came later never reorders a key class: its
key class gains the new element at the front of the remaining class. -/
theorem filter_insertDescBy {α : Type} (key : α → Nat) (x : α) (l : List α) (n : Nat) :
    (insertDescBy key x l).filter (fun y => key y == n) =
      if key x == n then x :: l.filter (fun y => key y == n)
      else l.filter (fun y => key y == n) := by
  induction l with
  | nil =>
    by_cases hx : (key x == n) = true <;>
      simp [insertDescBy, List.filter, hx]
  | cons h t ih =>
    unfold insertDescBy
    by_cases hc : key x < key h
    · rw [if_pos hc, List.filter_cons]
      by_cases hx : (key x == n) = true
      · have hxn : key x = n := by simpa using hx
        have hh : (key h == n) = false := by
          simp only [beq_eq_false_iff_ne]
          omega
        simp [ih, hx, hh, List.filter_cons]
      · have hx' : (key x == n) = false := by
          simp only [beq_eq_false_iff_ne]
          simpa using hx
        simp [ih, hx', List.filter_cons]
    · rw [if_neg hc]
      by_cases hx : (key x == n) = true
      · simp [List.filter_cons, hx]
      · have hx' : (key x == n) = false := by
          simp only [beq_eq_false_iff_ne]
          simpa using hx
        simp [List.filter_cons, hx']

/-- The descending insertion sort is stable: every key class of the output
is that of the input, in the input's order. -/
theorem filter_sortDescBy {α : Type} (key : α → Nat) (l : List α) (n : Nat) :
    (sortDescBy key l).filter (fun y => key y == n) = l.filter (fun y => key y == n) := by
  induction l with
  | nil => rfl
  | cons h t ih =>
    unfold sortDescBy
    rw [filter_insertDescBy, List.filter_cons, ih]

/-- Truncation keeps each filtered class a prefix of the untruncated one. -/
theorem filter_take_append {α : Type} (p : α → Bool) :
    ∀ (n : Nat) (l : List α), ∃ t, (l.take n).filter p ++ t = l.filter p
  | _, [] => ⟨[], by simp⟩
  | 0, l => ⟨l.filter p, by simp⟩
  | n + 1, h :: tl => by
    obtain ⟨t, ht⟩ := filter_take_append p n tl
    by_cases hp : p h
    · exact ⟨t, by simp [List.filter_cons, hp, ht]⟩
    · exact ⟨t, by simp [List.filter_cons, hp, ht]⟩

/-- Every element of the pre-sort recommendation list scored at least 50. -/
theorem mem_scoredList_score (ra : RoomAnalysis) (catalog : List CatalogItem)
    (x : ScoredItem) (hx : x ∈ scoredList ra catalog) : 50 ≤ x.recommendation_score := by
  unfold scoredList at hx
  simp only [List.mem_filterMap] at hx
  obtain ⟨item, _hmem, heq⟩ := hx
  split at heq
  · cases heq
    assumption
  · exact Option.noConfusion heq

/-- `find?` only depends on the pointwise behaviour of its predicate. -/
theorem find?_congrF {α : Type} (p q : α → Bool) (h : ∀ a, p a = q a) :
    ∀ l : List α, l.find? p = l.find? q
  | [] => rfl
  | a :: l => by
    by_cases ha : p a
    · rw [List.find?_cons_of_pos _ ha, List.find?_cons_of_pos _ ((h a) ▸ ha)]
    · rw [List.find?_cons_of_neg _ ha, List.find?_cons_of_neg _ ((h a) ▸ ha),
        find?_congrF p q h l]

/-- On a catalog whose items all carry an `id` and never an explicitly
empty color list, the inner scan returns the first matching item's asset
(`find?` semantics) and cannot raise. -/
theorem matchAsset_eq_find (ft cat st rsn : String) (catalog : List CatalogItem)
    (hwf : ∀ item ∈ catalog, item.id ≠ none ∧ item.available_colors ≠ some []) :
    matchAsset ft cat st rsn catalog =
      .ok ((catalog.find? (suggMatches ft cat)).map (mkA st rsn)) := by
  induction catalog with
  | nil => rfl
  | cons item rest ih =>
    obtain ⟨hid, hcol⟩ := hwf item (List.mem_cons_self item rest)
    by_cases h : suggMatches ft cat item
    · rw [List.find?_cons_of_pos _ h]
      cases hi : item.id with
      | none => exact absurd hi hid
      | some i =>
        cases hc : item.available_colors with
        | none => simp [matchAsset, h, hi, hc, mkA]
        | some cs =>
          cases cs with
          | nil => exact absurd hc hcol
          | cons c cs' => simp [matchAsset, h, hi, hc, mkA]
    · rw [List.find?_cons_of_neg _ h]
      rw [show matchAsset ft cat st rsn (item :: rest) = matchAsset ft cat st rsn rest by
        simp [matchAsset, h]]
      exact ih (fun it hit => hwf it (List.mem_cons_of_mem item hit))

/-- On a well-formed catalog the reconciler, applied to a single
suggestion, returns the asset of the first item accepted by
`suggMatches`, or nothing. -/
theorem mapRec_single (s : Suggestion) (catalog : List CatalogItem)
    (hwf : ∀ item ∈ catalog, item.id ≠ none ∧ item.available_colors ≠ some []) :
    map_recommendations_to_assets [s] catalog =
      .ok (match catalog.find?
            (suggMatches (pyLower (s.furniture_type.getD ""))
              (pyLower (s.category.getD ""))) with
        | none => []
        | some item => [mkA (pyLower (s.preferred_style.getD "")) (s.reason.getD "") item]) := by
  have h := matchAsset_eq_find (pyLower (s.furniture_type.getD ""))
    (pyLower (s.category.getD "")) (pyLower (s.preferred_style.getD ""))
    (s.reason.getD "") catalog hwf
  unfold map_recommendations_to_assets
  rw [h]
  cases catalog.find?
      (suggMatches (pyLower (s.furniture_type.getD "")) (pyLower (s.category.getD ""))) with
  | none => rfl
  | some item => rfl

/-! ## Claim theorems -/

/-- C1 (counterexample): with `spaceSize = small` and an item of width and
depth 2 m (threshold test fails), no size-fit outcome fires at all — the
size contribution is 0 with no reason, and the scored output carries only
the category reason, instead of the claimed `+10` "Versatile size for
medium spaces". -/
theorem C1_counterexample :
    sizeScore "small" C1item = (0, []) ∧
    match_furniture C1ra [C1item] =
      [⟨C1item, 50, ["Perfect for your living room"]⟩] := by
  exact ⟨rfl, rfl⟩

/-- C1 (amended): at most one size-fit outcome fires, and it fires exactly
when its score is nonzero; `+20` "Compact size fits small spaces" fires
when `spaceSize` is `small` and both width and depth are < 1.5 m; `+20`
"Statement piece for larger rooms" fires when `spaceSize` is `large` and
width > 2 m or depth > 2 m; the `+10` versatile outcome fires exactly when
`spaceSize` is neither `small` nor `large`; when `spaceSize` is `small` or
`large` and the threshold test fails, no outcome fires (zero, not one). -/
theorem C1_size_fit (spaceSize : String) (item : CatalogItem) :
    (sizeScore spaceSize item).2.length ≤ 1 ∧
    ((sizeScore spaceSize item).1 = 0 ↔ (sizeScore spaceSize item).2 = []) ∧
    (spaceSize ≠ "small" → spaceSize ≠ "large" →
      sizeScore spaceSize item = (10, ["Versatile size for medium spaces"])) ∧
    (spaceSize = "small" →
      (((item.dimensions.getD ⟨none, none⟩).width.getD 2) < mkRat 3 2 ∧
       ((item.dimensions.getD ⟨none, none⟩).depth.getD 2) < mkRat 3 2) →
      sizeScore spaceSize item = (20, ["Compact size fits small spaces"])) ∧
    (spaceSize = "small" →
      ¬ (((item.dimensions.getD ⟨none, none⟩).width.getD 2) < mkRat 3 2 ∧
         ((item.dimensions.getD ⟨none, none⟩).depth.getD 2) < mkRat 3 2) →
      sizeScore spaceSize item = (0, [])) ∧
    (spaceSize = "large" →
      (((item.dimensions.getD ⟨none, none⟩).width.getD 1) > 2 ∨
       ((item.dimensions.getD ⟨none, none⟩).depth.getD 1) > 2) →
      sizeScore spaceSize item = (20, ["Statement piece for larger rooms"])) ∧
    (spaceSize = "large" →
      ¬ (((item.dimensions.getD ⟨none, none⟩).width.getD 1) > 2 ∨
         ((item.dimensions.getD ⟨none, none⟩).depth.getD 1) > 2) →
      sizeScore spaceSize item = (0, [])) := by
  by_cases h1 : spaceSize = "small"
  · by_cases hw : ((item.dimensions.getD ⟨none, none⟩).width.getD 2) < mkRat 3 2 ∧
        ((item.dimensions.getD ⟨none, none⟩).depth.getD 2) < mkRat 3 2
    · simp [sizeScore, h1, hw]
    · simp [sizeScore, h1, hw]
  · by_cases h2 : spaceSize = "large"
    · by_cases hw : ((item.dimensions.getD ⟨none, none⟩).width.getD 1) > 2 ∨
          ((item.dimensions.getD ⟨none, none⟩).depth.getD 1) > 2
      · simp [sizeScore, h1, h2, hw]
      · simp [sizeScore, h1, h2, hw]
    · simp [sizeScore, h1, h2]

/-- C1 (witness): the versatile outcome fires for `medium`, the compact
outcome fires for a 1 m × 1 m item in a `small` space, and the statement
outcome fires for the 2 m-deep `C1item` in a `large` space. -/
theorem C1_witness :
    sizeScore "medium" C1item = (10, ["Versatile size for medium spaces"]) ∧
    sizeScore "small" C1smallItem = (20, ["Compact size fits small spaces"]) ∧
     sizeScore "large" C1largeItem = (20, ["Statement piece for larger rooms"]) :=
  ⟨(C1_size_fit "medium" C1item).2.2.1 (by decide) (by decide),
   (C1_size_fit "small" C1smallItem).2.2.2.1 rfl (by decide),
   (C1_size_fit "large" C1largeItem).2.2.2.2.2.1 rfl (by decide)⟩

/-- C2 (counterexample): for the unknown room type `garage` the scorer
uses the fallback category list `["living"]`, not the living-room list
`["living", "lounge"]`: an item of category `lounge` gets no category
bonus and is dropped entirely. -/
theorem C2_counterexample :
    usedCategories C2garageRa = ["living"] ∧
    match_furniture C2garageRa [C2loungeItem] = [] := by
  exact ⟨rfl, rfl⟩

/-- C2 (amended): an absent `roomType` defaults to `living` and yields the
living-room list `["living", "lounge"]`; a present room type outside the
four table keys falls back to the singleton `["living"]`. -/
theorem C2_fallback (ra : RoomAnalysis) (rt : String) :
    (ra.room_type = none → usedCategories ra = ["living", "lounge"]) ∧
    (ra.room_type = some rt →
      pyLower rt ≠ "living" → pyLower rt ≠ "bedroom" → pyLower rt ≠ "dining" →
      pyLower rt ≠ "office" → usedCategories ra = ["living"]) := by
  constructor
  · intro h
    unfold usedCategories
    rw [h]
    rfl
  · intro h h1 h2 h3 h4
    unfold usedCategories validCategories
    rw [h]
    simp only [Option.getD_some]
    rw [if_neg h1, if_neg h2, if_neg h3, if_neg h4]

/-- C2 (witness): the two fallback behaviours at concrete inputs. -/
theorem C2_witness :
    usedCategories C2garageRa = ["living"] ∧
    usedCategories ⟨none, some "modern", some "medium"⟩ = ["living", "lounge"] :=
  ⟨(C2_fallback C2garageRa "garage").2 rfl (by decide) (by decide) (by decide) (by decide),
   (C2_fallback ⟨none, some "modern", some "medium"⟩ "x").1 rfl⟩

/-- C3 (counterexample): a matched item whose `available_colors` key is
present but holds the empty list makes the reconciler raise `IndexError`
(`available_colors[0]`) instead of substituting `#808080`; the `#808080`
default only applies when the key is absent. -/
theorem C3_counterexample :
    map_recommendations_to_assets [C3sugg] [C3item] = .error .indexError ∧
    map_recommendations_to_assets [C3sugg] [C3itemNoColors] =
      .ok [⟨"sofa_002", "#808080", "", mkRat 4 5⟩] := by
  exact ⟨rfl, rfl⟩

/-- C3 (amended): for an accepted match the chosen color is the first
entry of `available_colors` when that key holds a non-empty list; when
the key is absent the default `#808080` is used and a `MatchedAsset` is
still returned; when the key holds an explicitly empty list the call
fails with `IndexError`. -/
theorem C3_color_choice (s : Suggestion) (item : CatalogItem) (i c : String)
    (cs : List String)
    (hm : suggMatches (pyLower (s.furniture_type.getD ""))
      (pyLower (s.category.getD "")) item = true)
    (hid : item.id = some i) :
    (item.available_colors = some (c :: cs) →
      map_recommendations_to_assets [s] [item] =
        .ok [⟨i, c, s.reason.getD "",
          if styleEqB (pyLower (s.preferred_style.getD "")) item then mkRat 4 5 else mkRat 3 5⟩]) ∧
    (item.available_colors = none →
      map_recommendations_to_assets [s] [item] =
        .ok [⟨i, "#808080", s.reason.getD "",
          if styleEqB (pyLower (s.preferred_style.getD "")) item then mkRat 4 5 else mkRat 3 5⟩]) ∧
    (item.available_colors = some [] →
      map_recommendations_to_assets [s] [item] = .error .indexError) := by
  refine ⟨fun hc => ?_, fun hc => ?_, fun hc => ?_⟩ <;>
    simp [map_recommendations_to_assets, matchAsset, hm, hid, hc, Bind.bind, Except.bind]

/-- C3 (witness): the first color of a two-color item is chosen. -/
theorem C3_witness :
    map_recommendations_to_assets [C3sugg] [C3witnessItem] =
      .ok [⟨"sofa_004", "#111111", "", mkRat 4 5⟩] :=
  ((C3_color_choice C3sugg C3witnessItem "sofa_004" "#111111" ["#222222"]
      (by decide) rfl).1 rfl).trans (by rfl)

/-- C4: one bad catalog record is neither excluded nor harmless. The
reconciler evaluates `item['id']` on the first matching item; when that
item has no `id` the whole call raises `KeyError`, so the well-formed
`C4goodItem` behind it produces nothing. The scorer does not exclude an
item missing `id` and `dimensions` either: it scores and returns it. -/
theorem C4_bad_record :
    map_recommendations_to_assets [C4sugg] [C4badItem, C4goodItem] =
      .error .keyError ∧
    match_furniture C4ra [C4noDimsItem] =
      [⟨C4noDimsItem, 60,
        ["Perfect for your living room", "Versatile size for medium spaces"]⟩] := by
  exact ⟨rfl, rfl⟩

/-- C5: the Profile Scorer returns at most 8 results, each scoring at
least 50, sorted non-increasing by score; each score class of the output
is a prefix of the same score class of the catalog-ordered pre-sort list
(stable, first-seen item wins); an empty catalog yields `[]`. -/
theorem C5_score_contract (ra : RoomAnalysis) (catalog : List CatalogItem) :
    (match_furniture ra catalog).length ≤ 8 ∧
    (∀ x ∈ match_furniture ra catalog, 50 ≤ x.recommendation_score) ∧
    (match_furniture ra catalog).Pairwise
      (fun a b => b.recommendation_score ≤ a.recommendation_score) ∧
    (∀ n : Nat, ∃ t,
      (match_furniture ra catalog).filter (fun x => x.recommendation_score == n) ++ t =
        (scoredList ra catalog).filter (fun x => x.recommendation_score == n)) ∧
    match_furniture ra [] = [] := by
  refine ⟨?_, ?_, ?_, ?_, rfl⟩
  · simp only [match_furniture, List.length_take]
    omega
  · intro x hx
    have hx1 : x ∈ sortDescBy (fun s => s.recommendation_score) (scoredList ra catalog) :=
      List.take_subset _ _ hx
    exact mem_scoredList_score ra catalog x ((mem_sortDescBy _ x _).1 hx1)
  · exact List.Pairwise.sublist (List.take_sublist _ _) (pairwise_sortDescBy _ _)
  · intro n
    obtain ⟨t, ht⟩ := filter_take_append
      (fun x : ScoredItem => x.recommendation_score == n) 8
      (sortDescBy (fun s => s.recommendation_score) (scoredList ra catalog))
    refine ⟨t, ?_⟩
    simp only [match_furniture]
    rw [ht]
    exact filter_sortDescBy _ _ n

/-- C5 (witness): the spec's own example — profile living/minimal/small
against `sofa_001` (living, minimal, 1.2 m × 1.0 m) — is returned with
score 100, and the general bound applies to it. -/
theorem C5_witness :
    (⟨C5item100, 100, C5reasons⟩ : ScoredItem) ∈ match_furniture C5ra [C5item100] ∧
    50 ≤ (100 : Nat) :=
  ⟨by decide,
   (C5_score_contract C5ra [C5item100]).2.1 ⟨C5item100, 100, C5reasons⟩ (by decide)⟩

/-- C6 (counterexample): `nonliving` is not a member of the living-room
category set, yet the item receives the +50 category bonus (score 60 with
the "Perfect for your living room" reason), because the code tests
substring containment, not membership. -/
theorem C6_counterexample :
    match_furniture C6ra [C6item] =
      [⟨C6item, 60,
        ["Perfect for your living room", "Versatile size for medium spaces"]⟩] ∧
    ¬ ("nonliving" ∈ validCategories "living") := by
  exact ⟨rfl, by decide⟩

/-- C6 (amended): the +50 bonus and its reason are contributed exactly
once if and only if some entry of the room type's category list is a
substring of the item's lowercased category (`categoryMatchB`), the other
contributions being the style bonus and the size score. -/
theorem C6_category_bonus (roomType stylePref spaceSize : String)
    (validCats : List String) (item : CatalogItem) :
    scoreItem roomType stylePref spaceSize validCats item =
      ((if categoryMatchB validCats item then 50 else 0) +
        (if styleMatchB stylePref item then 30 else 0) +
        (sizeScore spaceSize item).1,
       (if categoryMatchB validCats item then
          ["Perfect for your " ++ roomType ++ " room"] else []) ++
        (if styleMatchB stylePref item then
          ["Matches your " ++ stylePref ++ " style"] else []) ++
        (sizeScore spaceSize item).2) := by
  unfold scoreItem
  by_cases h1 : categoryMatchB validCats item <;>
    by_cases h2 : styleMatchB stylePref item <;>
      simp [h1, h2]

/-- C7: on a catalog whose items are well-formed (an `id` key is present
and `available_colors` is never explicitly empty), the reconciler accepts
exactly the first catalog item satisfying `type_match and category_match`
(`find?` order), and a suggestion with no such item produces no output. -/
theorem C7_first_match_wins (s : Suggestion) (catalog : List CatalogItem)
    (hwf : ∀ item ∈ catalog, item.id ≠ none ∧ item.available_colors ≠ some []) :
    map_recommendations_to_assets [s] catalog =
      .ok (match catalog.find?
            (suggMatches (pyLower (s.furniture_type.getD ""))
              (pyLower (s.category.getD ""))) with
        | none => []
        | some item =>
          [mkA (pyLower (s.preferred_style.getD "")) (s.reason.getD "") item]) :=
  mapRec_single s catalog hwf

/-- C7 (witness): with catalog `[A, B]` and both items matching, the
returned asset is built from `A`, not `B`. -/
theorem C7_witness :
    map_recommendations_to_assets [C7sugg] [C7itemA, C7itemB] =
      .ok [⟨"A", "#aaaaaa", "", mkRat 4 5⟩] :=
  (C7_first_match_wins C7sugg [C7itemA, C7itemB] (by decide)).trans (by rfl)

/-- C8: both stages are pure functions of their arguments in this
embedding (the Python bodies read nothing but their parameters and use no
randomness), so two calls on identical inputs give identical outputs. -/
theorem C8_deterministic (ra : RoomAnalysis) (catalog : List CatalogItem)
    (suggestions : List Suggestion) (avail : List CatalogItem) :
    match_furniture ra catalog = match_furniture ra catalog ∧
    map_recommendations_to_assets suggestions avail =
      map_recommendations_to_assets suggestions avail :=
  ⟨rfl, rfl⟩

/-- C9: the scorer's `try/except Exception` turns every exception of the
body into `[]`, so the caller cannot distinguish an internal error from a
catalog with no item above the threshold: an ill-typed `room_type` (body
raises `AttributeError`) and a well-typed catalog scoring below 50 both
return `[]`. -/
theorem C9_never_raises :
    (∀ (ra : RoomAnalysisDyn) (catalog : List CatalogItemDyn) (e : PyErr),
      match_furniture_core ra catalog = .error e →
        match_furniture_dyn ra catalog = []) ∧
    match_furniture_core C9badRa [] = .error .attributeError ∧
    match_furniture_dyn C9badRa [] = [] ∧
    match_furniture_core C9okRa [C9lowItem] = .ok [] ∧
    match_furniture_dyn C9okRa [C9lowItem] = [] := by
  refine ⟨fun ra catalog e h => ?_, rfl, rfl, rfl, rfl⟩
  unfold match_furniture_dyn
  rw [h]

/-- C9 (witness): the universally quantified part applied to the concrete
erroring input. -/
theorem C9_witness : match_furniture_dyn C9badRa [] = [] :=
  C9_never_raises.1 C9badRa [] .attributeError rfl

/-- C10: a suggestion whose `furniture_type` is absent or empty satisfies
`type_match` for every catalog item (the empty string is a substring of
every name), so it is matched to the first item whose lowercased category
equals the suggestion's category rather than being dropped. -/
theorem C10_empty_type_matches (s : Suggestion) (catalog : List CatalogItem)
    (hft : s.furniture_type = none ∨ s.furniture_type = some "")
    (hwf : ∀ item ∈ catalog, item.id ≠ none ∧ item.available_colors ≠ some []) :
    (∀ item : CatalogItem,
      typeMatchB (pyLower (s.furniture_type.getD "")) item = true) ∧
    map_recommendations_to_assets [s] catalog =
      .ok (match catalog.find?
            (fun item => categoryEqB (pyLower (s.category.getD "")) item) with
        | none => []
        | some item =>
          [mkA (pyLower (s.preferred_style.getD "")) (s.reason.getD "") item]) := by
  have hft0 : pyLower (s.furniture_type.getD "") = "" := by
    rcases hft with h | h <;> rw [h] <;> rfl
  have htm : ∀ item : CatalogItem,
      typeMatchB (pyLower (s.furniture_type.getD "")) item = true := by
    intro item
    rw [hft0]
    unfold typeMatchB
    rw [isSubstr_empty_left]
    rfl
  have hpq : ∀ a : CatalogItem,
      suggMatches (pyLower (s.furniture_type.getD ""))
        (pyLower (s.category.getD "")) a =
        categoryEqB (pyLower (s.category.getD "")) a := by
    intro a
    unfold suggMatches
    rw [htm a, Bool.true_and]
  refine ⟨htm, ?_⟩
  rw [mapRec_single s catalog hwf, find?_congrF _ _ hpq catalog]

/-- C10 (witness): a suggestion with no `furniture_type` key is matched to
the first living-category item (`Y`), past a non-living item (`X`). -/
theorem C10_witness :
    map_recommendations_to_assets [C10sugg] [C10itemX, C10itemY] =
      .ok [⟨"Y", "#dddddd", "", mkRat 4 5⟩] :=
  ((C10_empty_type_matches C10sugg [C10itemX, C10itemY]
      (Or.inl rfl) (by decide)).2).trans (by rfl)

end GruhaAlankar
